import Mathlib

/-!
Verification of the react-fastapi-admin front-end core logic:
the HTTP error-classification pipeline (web/src/utils/errorHandler.js),
the two axios response interceptors (react-web/src/utils/request.js and
the Vue interceptor resResolve), the dynamic menu builder
(react-web/src/components/Layout/index.jsx) and the password strength
checker (web/src/utils/passwordStrength.js), shallowly embedded in Lean.

JavaScript values are modelled as follows: optional object fields become
Option types; string truthiness (the empty string is falsy) is made
explicit wherever the source relies on it; assigning window.location.href
is modelled as an update of the pathname component of an explicit client
state; localStorage is a pair of Option String fields of that state.
-/

/-! ### Error taxonomy and status-code tables (errorHandler.js) -/

inductive ErrorType where
  | business_error
  | network_error
  | auth_error
  | system_error
deriving DecidableEq, Repr

def BUSINESS_ERROR_CODES : List Nat := [400, 422, 409, 412]

def AUTH_ERROR_CODES : List Nat := [401, 403]

def SYSTEM_ERROR_CODES : List Nat := [500, 502, 503, 504]

/-- The generic status-code to message map ERROR_CODE_MAP. -/
def ERROR_CODE_MAP : Nat → Option String
  | 400 => some "请求参数错误"
  | 401 => some "登录已过期，请重新登录"
  | 403 => some "没有权限访问"
  | 404 => some "请求的资源不存在"
  | 405 => some "请求方法不允许"
  | 408 => some "请求超时"
  | 422 => some "数据验证失败"
  | 429 => some "请求过于频繁，请稍后再试"
  | 500 => some "服务器内部错误"
  | 502 => some "网关错误"
  | 503 => some "服务暂不可用"
  | 504 => some "网关超时"
  | _ => none

/-- Body of an HTTP response as the error pipeline reads it: the business
code field and the three message fields, each possibly absent. -/
structure ResponseBody where
  code : Option Int
  msg : Option String
  message : Option String
  detail : Option String
deriving DecidableEq, Repr

/-- An axios response: HTTP status, optional parsed body, statusText, and
whether the request was configured with responseType blob. -/
structure Response where
  status : Nat
  data : Option ResponseBody
  statusText : String
  responseTypeBlob : Bool
deriving DecidableEq, Repr

/-- An axios error object: carries a response unless the failure happened
before any response arrived (network failure). -/
structure AxiosError where
  response : Option Response
deriving DecidableEq, Repr

/-- getErrorType from errorHandler.js: no response means network error,
otherwise classify by the HTTP status tables, defaulting to business. -/
def getErrorType (e : AxiosError) : ErrorType :=
  match e.response with
  | none => ErrorType.network_error
  | some r =>
    if AUTH_ERROR_CODES.contains r.status then ErrorType.auth_error
    else if BUSINESS_ERROR_CODES.contains r.status then ErrorType.business_error
    else if SYSTEM_ERROR_CODES.contains r.status then ErrorType.system_error
    else ErrorType.business_error

/-- C1: getErrorType maps a missing response to network_error (never
business_error); with a response, status 401 or 403 gives auth_error,
status 400, 422, 409 or 412 gives business_error, status 500, 502, 503 or
504 gives system_error, and any other status defaults to business_error. -/
theorem getErrorType_classification (e : AxiosError) :
    (e.response = none →
      getErrorType e = ErrorType.network_error ∧
      getErrorType e ≠ ErrorType.business_error) ∧
    (∀ r, e.response = some r →
      ((r.status = 401 ∨ r.status = 403) →
        getErrorType e = ErrorType.auth_error) ∧
      ((r.status = 400 ∨ r.status = 422 ∨ r.status = 409 ∨ r.status = 412) →
        getErrorType e = ErrorType.business_error) ∧
      ((r.status = 500 ∨ r.status = 502 ∨ r.status = 503 ∨ r.status = 504) →
        getErrorType e = ErrorType.system_error) ∧
      (¬(r.status = 401 ∨ r.status = 403) →
        ¬(r.status = 400 ∨ r.status = 422 ∨ r.status = 409 ∨ r.status = 412) →
        ¬(r.status = 500 ∨ r.status = 502 ∨ r.status = 503 ∨ r.status = 504) →
        getErrorType e = ErrorType.business_error)) := by
  constructor
  · intro h
    simp [getErrorType, h]
  · intro r hr
    refine ⟨?_, ?_, ?_, ?_⟩
    · rintro (h | h) <;>
        simp [getErrorType, hr, h, AUTH_ERROR_CODES, BUSINESS_ERROR_CODES,
          SYSTEM_ERROR_CODES]
    · rintro (h | h | h | h) <;>
        simp [getErrorType, hr, h, AUTH_ERROR_CODES, BUSINESS_ERROR_CODES,
          SYSTEM_ERROR_CODES]
    · rintro (h | h | h | h) <;>
        simp [getErrorType, hr, h, AUTH_ERROR_CODES, BUSINESS_ERROR_CODES,
          SYSTEM_ERROR_CODES]
    · intro h1 h2 h3
      push_neg at h1 h2 h3
      simp [getErrorType, hr, AUTH_ERROR_CODES, BUSINESS_ERROR_CODES,
        SYSTEM_ERROR_CODES, List.contains, h1.1, h1.2, h2.1, h2.2.1,
        h2.2.2.1, h2.2.2.2, h3.1, h3.2.1, h3.2.2.1, h3.2.2.2]

/-- C1 witness: evaluating the classification at concrete errors. -/
theorem getErrorType_classification_witness :
    getErrorType ⟨none⟩ = ErrorType.network_error ∧
    getErrorType ⟨some ⟨403, none, "", false⟩⟩ = ErrorType.auth_error ∧
    getErrorType ⟨some ⟨409, none, "", false⟩⟩ = ErrorType.business_error ∧
    getErrorType ⟨some ⟨503, none, "", false⟩⟩ = ErrorType.system_error ∧
    getErrorType ⟨some ⟨418, none, "", false⟩⟩ = ErrorType.business_error :=
  ⟨((getErrorType_classification ⟨none⟩).1 rfl).1,
   ((getErrorType_classification ⟨some ⟨403, none, "", false⟩⟩).2 _ rfl).1
     (Or.inr rfl),
   (((getErrorType_classification ⟨some ⟨409, none, "", false⟩⟩).2 _ rfl).2.1)
     (Or.inr (Or.inr (Or.inl rfl))),
   (((getErrorType_classification
      ⟨some ⟨503, none, "", false⟩⟩).2 _ rfl).2.2.1)
     (Or.inr (Or.inr (Or.inl rfl))),
   (((getErrorType_classification
      ⟨some ⟨418, none, "", false⟩⟩).2 _ rfl).2.2.2)
     (by decide) (by decide) (by decide)⟩

/-! ### extractErrorMessage (errorHandler.js) -/

/-- JavaScript string-field truthiness: a field is truthy when it is
present and not the empty string. -/
def truthyStr : Option String → Option String
  | none => none
  | some s => if s = "" then none else some s

/-- extractErrorMessage from errorHandler.js: with no response or no body
the caller default is returned; otherwise the first truthy field among
msg, message and detail wins, then the ERROR_CODE_MAP entry for the HTTP
status, then the caller default. -/
def extractErrorMessage (response : Option Response)
    (defaultMessage : String) : String :=
  match response with
  | none => defaultMessage
  | some r =>
    match r.data with
    | none => defaultMessage
    | some d =>
      match truthyStr d.msg with
      | some s => s
      | none =>
        match truthyStr d.message with
        | some s => s
        | none =>
          match truthyStr d.detail with
          | some s => s
          | none => (ERROR_CODE_MAP r.status).getD defaultMessage

/-! ### handleAuthError (errorHandler.js) -/

/-- The browser-visible client state the auth-error handler touches:
the two localStorage entries and the current location pathname. -/
structure ClientState where
  token : Option String
  userInfo : Option String
  pathname : String
deriving DecidableEq, Repr

/-- Result of one call to handleAuthError: the new client state, whether
a redirect to /login was performed, and the boolean the function
returns. -/
structure AuthStepResult where
  state : ClientState
  redirected : Bool
  handled : Bool
deriving DecidableEq, Repr

/-- handleAuthError from errorHandler.js. On status 401 it removes token
and userInfo from localStorage and, unless the page is already /login,
assigns /login to window.location.href (modelled as a pathname update).
Other statuses leave the state alone and return false. -/
def handleAuthError (status : Nat) (s : ClientState) : AuthStepResult :=
  if status = 401 then
    let cleared : ClientState := { s with token := none, userInfo := none }
    if s.pathname ≠ "/login" then
      ⟨{ cleared with pathname := "/login" }, true, true⟩
    else
      ⟨cleared, false, true⟩
  else
    ⟨s, false, false⟩

/-- Sequential execution of n failing 401 requests, each running
handleAuthError; returns the final state and how many redirects were
performed in total. The browser event loop is single threaded, so
concurrent failures run their handlers one after the other. -/
def runAuth401 : Nat → ClientState → ClientState × Nat
  | 0, s => (s, 0)
  | n + 1, s =>
    let step := handleAuthError 401 s
    let rest := runAuth401 n step.state
    (rest.1, (if step.redirected then 1 else 0) + rest.2)

/-! ### isBusinessSuccess and isBusinessError (errorHandler.js) -/

/-- The business code carried in the body of a response, when any. -/
def bodyCode (r : Response) : Option Int :=
  r.data.bind fun d => d.code

/-- isBusinessSuccess from errorHandler.js: HTTP status in 200..299 and,
when the body carries a code field, that code is 200 or 0. -/
def isBusinessSuccess (r : Response) : Bool :=
  if 200 ≤ r.status ∧ r.status < 300 then
    match r.data with
    | some d =>
      match d.code with
      | some c => c = 200 ∨ c = 0
      | none => true
    | none => true
  else
    false

/-- isBusinessError from errorHandler.js: HTTP status in the business
error table, or a body code that is neither 200 nor 0. -/
def isBusinessError (r : Response) : Bool :=
  if BUSINESS_ERROR_CODES.contains r.status then
    true
  else
    match r.data with
    | some d =>
      match d.code with
      | some c => c ≠ 200 ∧ c ≠ 0
      | none => false
    | none => false

/-! ### GlobalErrorHandler (errorHandler.js) -/

/-- The standardized error object produced by createStandardError, with
the fields the registry consults (etype models the type field). -/
structure StandardError where
  etype : ErrorType
  message : String
  code : Int
deriving Repr

/-- The handler registry: one optional handler per error type plus an
optional default handler, parametric in the handler result type. -/
structure GlobalErrorHandler (R : Type) where
  handlers : ErrorType → Option (StandardError → R)
  defaultHandler : Option (StandardError → R)

/-- register from errorHandler.js: store a handler under an error type. -/
def GlobalErrorHandler.register {R : Type} (g : GlobalErrorHandler R)
    (errorType : ErrorType) (handler : StandardError → R) :
    GlobalErrorHandler R :=
  { g with handlers := fun t => if t = errorType then some handler else g.handlers t }

/-- setDefault from errorHandler.js. -/
def GlobalErrorHandler.setDefault {R : Type} (g : GlobalErrorHandler R)
    (handler : StandardError → R) : GlobalErrorHandler R :=
  { g with defaultHandler := some handler }

/-- Outcome of GlobalErrorHandler.handle: either the value returned by
some handler, or the fallback that logs and returns the error unchanged. -/
inductive HandleResult (R : Type) where
  | result (r : R)
  | loggedReturn (e : StandardError)

/-- handle from errorHandler.js: custom handler first, then the handler
registered for the error type, then the default handler, else log the
error and return it unchanged. -/
def GlobalErrorHandler.handle {R : Type} (g : GlobalErrorHandler R)
    (e : StandardError) (customHandler : Option (StandardError → R)) :
    HandleResult R :=
  match customHandler with
  | some f => HandleResult.result (f e)
  | none =>
    match g.handlers e.etype with
    | some f => HandleResult.result (f e)
    | none =>
      match g.defaultHandler with
      | some f => HandleResult.result (f e)
      | none => HandleResult.loggedReturn e

/-- C8: handle applies the supplied custom handler when there is one,
else the handler registered for the error type, else the default
handler, else it logs and returns the error unchanged. -/
theorem globalErrorHandler_handle_priority {R : Type}
    (g : GlobalErrorHandler R) (e : StandardError)
    (customHandler : Option (StandardError → R)) :
    (∀ f, customHandler = some f →
      g.handle e customHandler = HandleResult.result (f e)) ∧
    (customHandler = none → ∀ f, g.handlers e.etype = some f →
      g.handle e customHandler = HandleResult.result (f e)) ∧
    (customHandler = none → g.handlers e.etype = none →
      ∀ f, g.defaultHandler = some f →
        g.handle e customHandler = HandleResult.result (f e)) ∧
    (customHandler = none → g.handlers e.etype = none →
      g.defaultHandler = none →
      g.handle e customHandler = HandleResult.loggedReturn e) := by
  refine ⟨?_, ?_, ?_, ?_⟩
  · intro f hf
    simp [GlobalErrorHandler.handle, hf]
  · intro hc f hf
    simp [GlobalErrorHandler.handle, hc, hf]
  · intro hc hf f hd
    simp [GlobalErrorHandler.handle, hc, hf, hd]
  · intro hc hf hd
    simp [GlobalErrorHandler.handle, hc, hf, hd]

/-- An empty registry over Nat results, used to evaluate handle. -/
def emptyRegistry : GlobalErrorHandler Nat :=
  ⟨fun _ => none, none⟩

/-- A sample custom handler returning the error code as a Nat. -/
def sampleHandler : StandardError → Nat :=
  fun e => e.code.toNat

/-- A sample standardized error. -/
def sampleError : StandardError :=
  ⟨ErrorType.business_error, "操作失败", 422⟩

/-- C8 witness: with a custom handler its result is returned; with an
empty registry and no custom handler the error is logged and returned. -/
theorem globalErrorHandler_handle_priority_witness :
    emptyRegistry.handle sampleError (some sampleHandler)
      = HandleResult.result (sampleHandler sampleError) ∧
    emptyRegistry.handle sampleError none
      = HandleResult.loggedReturn sampleError :=
  ⟨(globalErrorHandler_handle_priority emptyRegistry sampleError
      (some sampleHandler)).1 sampleHandler rfl,
   (globalErrorHandler_handle_priority emptyRegistry sampleError
      none).2.2.2 rfl rfl rfl⟩

/-! ### C3: the 401 side effect is performed exactly once -/

/-- Once the storage is cleared and the page is /login, further 401
handling leaves the state unchanged and performs no redirect. -/
theorem runAuth401_fixed (n : Nat) (s : ClientState)
    (ht : s.token = none) (hu : s.userInfo = none)
    (hp : s.pathname = "/login") : runAuth401 n s = (s, 0) := by
  induction n with
  | zero => rfl
  | succ m ih =>
    have hstep : handleAuthError 401 s = ⟨s, false, true⟩ := by
      simp [handleAuthError, hp]
      cases s
      simp_all
    simp [runAuth401, hstep, ih]

/-- C3: any positive number of sequentially handled 401 failures clears
token and userInfo, leaves the page on /login, and performs exactly one
redirect overall when the page was not /login and zero redirects when it
already was (the handler never redirects from /login). -/
theorem handleAuthError_once (s : ClientState) (n : Nat) (h : 1 ≤ n) :
    (runAuth401 n s).1.token = none ∧
    (runAuth401 n s).1.userInfo = none ∧
    (runAuth401 n s).1.pathname = "/login" ∧
    (runAuth401 n s).2 = (if s.pathname = "/login" then 0 else 1) ∧
    (s.pathname = "/login" → (handleAuthError 401 s).redirected = false) := by
  obtain ⟨m, rfl⟩ : ∃ m, n = m + 1 := ⟨n - 1, (Nat.succ_pred_eq_of_pos h).symm⟩
  by_cases hp : s.pathname = "/login"
  · have hstep : handleAuthError 401 s =
        ⟨⟨none, none, "/login"⟩, false, true⟩ := by
      cases s
      simp_all [handleAuthError]
    have hfix := runAuth401_fixed m ⟨none, none, "/login"⟩ rfl rfl rfl
    simp [runAuth401, hstep, hfix, hp]
  · have hstep : handleAuthError 401 s =
        ⟨⟨none, none, "/login"⟩, true, true⟩ := by
      simp [handleAuthError, hp]
    have hfix := runAuth401_fixed m ⟨none, none, "/login"⟩ rfl rfl rfl
    simp [runAuth401, hstep, hfix, hp]

/-- C3 witness: three concurrent 401 failures from a logged-in page
perform exactly one redirect and end cleared on /login. -/
theorem handleAuthError_once_witness :
    (runAuth401 3 ⟨some "tok", some "info", "/dashboard"⟩).1.token = none ∧
    (runAuth401 3 ⟨some "tok", some "info", "/dashboard"⟩).1.userInfo = none ∧
    (runAuth401 3 ⟨some "tok", some "info", "/dashboard"⟩).1.pathname = "/login" ∧
    (runAuth401 3 ⟨some "tok", some "info", "/dashboard"⟩).2 =
      (if "/dashboard" = "/login" then 0 else 1) ∧
    ("/dashboard" = "/login" →
      (handleAuthError 401 ⟨some "tok", some "info", "/dashboard"⟩).redirected
        = false) :=
  handleAuthError_once ⟨some "tok", some "info", "/dashboard"⟩ 3 (by decide)

/-! ### C4: isBusinessSuccess and isBusinessError on body codes -/

/-- A response with HTTP status 404 whose body code is 200. -/
def code200status404 : Response :=
  ⟨404, some ⟨some 200, none, none, none⟩, "", false⟩

/-- C4 counterexample: the claim asserts isBusinessSuccess is true for
every response whose body code is 200, but the function also requires a
2xx HTTP status, so it returns false on status 404 with body code 200. -/
theorem isBusinessSuccess_counterexample :
    bodyCode code200status404 = some 200 ∧
    isBusinessSuccess code200status404 = false := by
  decide

/-- C4 amended: for a response with 2xx HTTP status and body code 200,
isBusinessSuccess returns true; for every response with body code 422,
isBusinessError returns true. -/
theorem businessSuccess_error_codes (r : Response) :
    (200 ≤ r.status → r.status < 300 → bodyCode r = some 200 →
      isBusinessSuccess r = true) ∧
    (bodyCode r = some 422 → isBusinessError r = true) := by
  constructor
  · intro h1 h2 hc
    match hd : r.data with
    | none => simp [bodyCode, hd] at hc
    | some b =>
      match hcode : b.code with
      | none => simp [bodyCode, hd, hcode] at hc
      | some c =>
        simp [bodyCode, hd, hcode] at hc
        simp [isBusinessSuccess, h1, h2, hd, hcode, hc]
  · intro hc
    match hd : r.data with
    | none => simp [bodyCode, hd] at hc
    | some b =>
      match hcode : b.code with
      | none => simp [bodyCode, hd, hcode] at hc
      | some c =>
        simp [bodyCode, hd, hcode] at hc
        subst hc
        by_cases hmem : BUSINESS_ERROR_CODES.contains r.status
        · simp [isBusinessError, hmem]
          exact Or.inl (by simpa [List.contains] using hmem)
        · simp [isBusinessError, hmem, hd, hcode]

/-- C4 witness: body code 200 on HTTP 200 is business success; body code
422 on HTTP 200 is business error. -/
theorem businessSuccess_error_codes_witness :
    (200 ≤ 200 ∧ 200 < 300 ∧
      isBusinessSuccess ⟨200, some ⟨some 200, none, none, none⟩, "", false⟩
        = true) ∧
    isBusinessError ⟨200, some ⟨some 422, none, none, none⟩, "", false⟩
      = true :=
  ⟨⟨by decide, by decide,
    (businessSuccess_error_codes
      ⟨200, some ⟨some 200, none, none, none⟩, "", false⟩).1
      (by decide) (by decide) rfl⟩,
   (businessSuccess_error_codes
      ⟨200, some ⟨some 422, none, none, none⟩, "", false⟩).2 rfl⟩

/-! ### C5: error message preference order -/

/-- A response with a mapped HTTP status (404) but no parsed body. -/
def status404noBody : Response := ⟨404, none, "", false⟩

/-- C5 counterexample: with no body every body field is absent, so by the
claimed order the ERROR_CODE_MAP entry for status 404 should be used, but
extractErrorMessage returns the caller default without consulting the
map. -/
theorem extractErrorMessage_counterexample :
    extractErrorMessage (some status404noBody) "默认消息" = "默认消息" ∧
    ERROR_CODE_MAP status404noBody.status = some "请求的资源不存在" ∧
    "默认消息" ≠ "请求的资源不存在" := by
  decide

/-- C5 amended: when the response or its body is absent the caller
default is returned directly; otherwise the first truthy field among
msg, message and detail is used verbatim (so a truthy msg always wins
and the map is never consulted), then the ERROR_CODE_MAP entry for the
status, then the caller default. -/
theorem extractErrorMessage_order (r : Response) (dfl : String) :
    (extractErrorMessage none dfl = dfl) ∧
    (r.data = none → extractErrorMessage (some r) dfl = dfl) ∧
    (∀ b, r.data = some b →
      (∀ s, b.msg = some s → s ≠ "" →
        extractErrorMessage (some r) dfl = s) ∧
      (truthyStr b.msg = none → ∀ s, b.message = some s → s ≠ "" →
        extractErrorMessage (some r) dfl = s) ∧
      (truthyStr b.msg = none → truthyStr b.message = none →
        ∀ s, b.detail = some s → s ≠ "" →
          extractErrorMessage (some r) dfl = s) ∧
      (truthyStr b.msg = none → truthyStr b.message = none →
        truthyStr b.detail = none →
        ∀ m, ERROR_CODE_MAP r.status = some m →
          extractErrorMessage (some r) dfl = m) ∧
      (truthyStr b.msg = none → truthyStr b.message = none →
        truthyStr b.detail = none → ERROR_CODE_MAP r.status = none →
        extractErrorMessage (some r) dfl = dfl)) := by
  refine ⟨rfl, ?_, ?_⟩
  · intro hd
    simp [extractErrorMessage, hd]
  · intro b hb
    refine ⟨?_, ?_, ?_, ?_, ?_⟩
    · intro s hs hne
      simp [extractErrorMessage, hb, truthyStr, hs, hne]
    · intro hmsg s hs hne
      have hm2 : truthyStr b.message = some s := by simp [truthyStr, hs, hne]
      simp [extractErrorMessage, hb, hmsg, hm2]
    · intro hmsg hmessage s hs hne
      have hd2 : truthyStr b.detail = some s := by simp [truthyStr, hs, hne]
      simp [extractErrorMessage, hb, hmsg, hmessage, hd2]
    · intro hmsg hmessage hdetail m hm
      simp [extractErrorMessage, hb, hmsg, hmessage, hdetail, hm]
    · intro hmsg hmessage hdetail hm
      simp [extractErrorMessage, hb, hmsg, hmessage, hdetail, hm]

/-- C5 witness: a body carrying msg wins over the map even on a mapped
status, and with an all-absent body on an unmapped status the default is
returned. -/
theorem extractErrorMessage_order_witness :
    extractErrorMessage
      (some ⟨404, some ⟨none, some "后端消息", some "备用", some "详情"⟩, "", false⟩)
      "默认" = "后端消息" ∧
    extractErrorMessage
      (some ⟨418, some ⟨none, none, none, none⟩, "", false⟩) "默认" = "默认" :=
  ⟨((extractErrorMessage_order
      ⟨404, some ⟨none, some "后端消息", some "备用", some "详情"⟩, "", false⟩
      "默认").2.2 _ rfl).1 "后端消息" rfl (by decide),
   ((extractErrorMessage_order
      ⟨418, some ⟨none, none, none, none⟩, "", false⟩
      "默认").2.2 _ rfl).2.2.2.2 rfl rfl rfl rfl⟩

/-! ### Response interceptors (react-web request.js and the Vue variant) -/

/-- The Vue helpers codeMsgMap used by resolveResError. -/
def codeMsgMap : Int → Option String
  | 400 => some "请求错误"
  | 401 => some "未授权，请重新登录"
  | 403 => some "拒绝访问"
  | 404 => some "请求地址不存在"
  | 500 => some "服务器内部错误"
  | 501 => some "服务未实现"
  | 502 => some "网关错误"
  | 503 => some "服务不可用"
  | 504 => some "网关超时"
  | 505 => some "HTTP版本不支持"
  | _ => none

/-- resolveResError from the Vue helpers: a truthy backend message wins,
else the codeMsgMap entry, else a generic unknown-error message. -/
def resolveResError (code : Int) (msg : String) : String :=
  if msg ≠ "" then msg else (codeMsgMap code).getD "未知错误"

/-- Outcome of a response interceptor on one response: resolve with the
body, pass the raw response through (blob), reject with an Error carrying
the response (React variant), or reject with a code and message object
(Vue variant). -/
inductive InterceptorResult where
  | resolvedData (d : Option ResponseBody)
  | resolvedResponse (r : Response)
  | rejectedError (r : Response)
  | rejectedBusiness (code : Int) (message : String)
deriving DecidableEq, Repr

/-- The fulfilled handler of the react-web response interceptor
(request.js): blob responses pass through, business success resolves with
the data, business error rejects with an Error carrying the response
(the 401 storage side effect is modelled by handleAuthError), anything
else resolves with the data. -/
def reactResResolve (r : Response) : InterceptorResult :=
  if r.responseTypeBlob then
    InterceptorResult.resolvedResponse r
  else if isBusinessSuccess r then
    InterceptorResult.resolvedData r.data
  else if isBusinessError r then
    InterceptorResult.rejectedError r
  else
    InterceptorResult.resolvedData r.data

/-- resResolve from the Vue interceptor: a body code other than 200
rejects with the resolved code and message, a body code of 200 resolves
with the data. -/
def vueResResolve (r : Response) : InterceptorResult :=
  if bodyCode r = some 200 then
    InterceptorResult.resolvedData r.data
  else
    InterceptorResult.rejectedBusiness ((bodyCode r).getD r.status)
      (resolveResError ((bodyCode r).getD r.status)
        ((r.data.bind fun d => d.msg).getD r.statusText))

/-- Whether an interceptor outcome is a promise rejection. -/
def isRejected : InterceptorResult → Bool
  | InterceptorResult.rejectedError _ => true
  | InterceptorResult.rejectedBusiness _ _ => true
  | _ => false

/-- An HTTP 200 response whose body code is 0. -/
def code0status200 : Response := ⟨200, some ⟨some 0, none, none, none⟩, "OK", false⟩

/-- C2 counterexample: the claim asserts that every body code other than
200 is rejected, but the react-web interceptor treats body code 0 on
HTTP 200 as business success and resolves with the data. -/
theorem interceptor_code0_counterexample :
    bodyCode code0status200 ≠ some 200 ∧
    code0status200.status = 200 ∧
    reactResResolve code0status200
      = InterceptorResult.resolvedData code0status200.data := by
  decide

/-- C2 amended: on a non-blob HTTP 200 response the react-web interceptor
rejects exactly for body codes other than 200 and 0 and resolves with the
data for body code 200 or 0; the Vue interceptor rejects every response
whose body code differs from 200 and resolves with the data when the body
code is 200. -/
theorem interceptor_body_code_convention :
    (∀ (b : ResponseBody) (st : String) (c : Int),
      b.code = some c → c ≠ 200 → c ≠ 0 →
      reactResResolve ⟨200, some b, st, false⟩
        = InterceptorResult.rejectedError ⟨200, some b, st, false⟩) ∧
    (∀ (b : ResponseBody) (st : String), b.code = some 200 →
      reactResResolve ⟨200, some b, st, false⟩
        = InterceptorResult.resolvedData (some b)) ∧
    (∀ (b : ResponseBody) (st : String), b.code = some 0 →
      reactResResolve ⟨200, some b, st, false⟩
        = InterceptorResult.resolvedData (some b)) ∧
    (∀ r : Response, bodyCode r ≠ some 200 →
      isRejected (vueResResolve r) = true) ∧
    (∀ r : Response, bodyCode r = some 200 →
      vueResResolve r = InterceptorResult.resolvedData r.data) := by
  refine ⟨?_, ?_, ?_, ?_, ?_⟩
  · intro b st c hc h200 h0
    simp [reactResResolve, isBusinessSuccess, isBusinessError, hc, h200, h0,
      BUSINESS_ERROR_CODES]
  · intro b st hc
    simp [reactResResolve, isBusinessSuccess, hc]
  · intro b st hc
    simp [reactResResolve, isBusinessSuccess, hc]
  · intro r hc
    simp [vueResResolve, hc, isRejected]
  · intro r hc
    simp [vueResResolve, hc]

/-- C2 witness: HTTP 200 with body code 500 rejects in both interceptors;
body code 200 resolves with the data in both. -/
theorem interceptor_body_code_convention_witness :
    reactResResolve ⟨200, some ⟨some 500, some "失败", none, none⟩, "OK", false⟩
      = InterceptorResult.rejectedError
          ⟨200, some ⟨some 500, some "失败", none, none⟩, "OK", false⟩ ∧
    reactResResolve ⟨200, some ⟨some 200, none, none, none⟩, "OK", false⟩
      = InterceptorResult.resolvedData (some ⟨some 200, none, none, none⟩) ∧
    isRejected (vueResResolve
      ⟨200, some ⟨some 500, some "失败", none, none⟩, "OK", false⟩) = true ∧
    vueResResolve ⟨200, some ⟨some 200, none, none, none⟩, "OK", false⟩
      = InterceptorResult.resolvedData (some ⟨some 200, none, none, none⟩) :=
  ⟨interceptor_body_code_convention.1 ⟨some 500, some "失败", none, none⟩ "OK"
      500 rfl (by decide) (by decide),
   interceptor_body_code_convention.2.1 ⟨some 200, none, none, none⟩ "OK" rfl,
   interceptor_body_code_convention.2.2.2.1
      ⟨200, some ⟨some 500, some "失败", none, none⟩, "OK", false⟩ (by decide),
   interceptor_body_code_convention.2.2.2.2
      ⟨200, some ⟨some 200, none, none, none⟩, "OK", false⟩ rfl⟩

/-! ### Menu builder (react-web Layout/index.jsx) -/

/-- A backend menu record as consumed by convertMenuData: identifier,
parent identifier, display name, path segment, optional icon name,
menu_type string, and nested children (an absent children field behaves
like an empty list in the builder, which tests children && length > 0). -/
inductive MenuRecord where
  | mk (id : Nat) (parent_id : Nat) (nm : String) (pth : String)
      (ic : Option String) (menu_type : String) (children : List MenuRecord)

def MenuRecord.recId : MenuRecord → Nat
  | MenuRecord.mk i _ _ _ _ _ _ => i

def MenuRecord.parentId : MenuRecord → Nat
  | MenuRecord.mk _ p _ _ _ _ _ => p

def MenuRecord.nameOf : MenuRecord → String
  | MenuRecord.mk _ _ n _ _ _ _ => n

def MenuRecord.pathOf : MenuRecord → String
  | MenuRecord.mk _ _ _ p _ _ _ => p

def MenuRecord.iconOf : MenuRecord → Option String
  | MenuRecord.mk _ _ _ _ i _ _ => i

def MenuRecord.menuTypeOf : MenuRecord → String
  | MenuRecord.mk _ _ _ _ _ t _ => t

def MenuRecord.childrenOf : MenuRecord → List MenuRecord
  | MenuRecord.mk _ _ _ _ _ _ c => c

/-- The icon value placed on a converted node: an iconify icon with an
explicit name, or one of the antd default icon components. -/
inductive IconVal where
  | iconify (nm : String)
  | dashboardOutlined
  | settingOutlined
  | menuOutlined
  | appstoreOutlined
deriving DecidableEq, Repr

/-- getDefaultIcon from Layout/index.jsx, keyed by menu_type. -/
def getDefaultIcon (menuType : String) : IconVal :=
  if menuType = "catalog" then IconVal.settingOutlined
  else if menuType = "menu" then IconVal.menuOutlined
  else if menuType = "button" then IconVal.appstoreOutlined
  else IconVal.menuOutlined

/-- An Ant Design menu node as produced by convertMenuData: key, label,
icon, and a children field that is only present when the record had a
non-empty children list. -/
inductive ConvertedMenu where
  | mk (key : String) (label : String) (icon : IconVal)
      (children : Option (List ConvertedMenu))

def ConvertedMenu.keyOf : ConvertedMenu → String
  | ConvertedMenu.mk k _ _ _ => k

def ConvertedMenu.labelOf : ConvertedMenu → String
  | ConvertedMenu.mk _ l _ _ => l

def ConvertedMenu.iconValOf : ConvertedMenu → IconVal
  | ConvertedMenu.mk _ _ i _ => i

def ConvertedMenu.childrenOf : ConvertedMenu → Option (List ConvertedMenu)
  | ConvertedMenu.mk _ _ _ c => c

/-- The full path built by convertMenuData: parentPath is a string, and
the template join is only used when parentPath is truthy (non-empty). -/
def joinKey (parentPath : String) (segment : String) : String :=
  if parentPath = "" then segment else parentPath ++ "/" ++ segment

mutual

/-- convertMenuData from Layout/index.jsx on a single record. -/
def convertOne (m : MenuRecord) (parentPath : String) : ConvertedMenu :=
  match m with
  | MenuRecord.mk _ _ nm pth ic mt children =>
    let fullPath := joinKey parentPath pth
    let iconVal :=
      match truthyStr ic with
      | some s => IconVal.iconify s
      | none => getDefaultIcon mt
    match children with
    | [] => ConvertedMenu.mk fullPath nm iconVal none
    | c :: cs =>
      ConvertedMenu.mk fullPath nm iconVal
        (some (convertMenuData (c :: cs) fullPath))

/-- convertMenuData from Layout/index.jsx on a record list. -/
def convertMenuData (menuData : List MenuRecord) (parentPath : String) :
    List ConvertedMenu :=
  match menuData with
  | [] => []
  | m :: rest => convertOne m parentPath :: convertMenuData rest parentPath

end

mutual

/-- All keys occurring in a converted node, the node first. -/
def keysOfMenu : ConvertedMenu → List String
  | ConvertedMenu.mk k _ _ none => [k]
  | ConvertedMenu.mk k _ _ (some cs) => k :: keysOfForest cs

/-- All keys occurring in a converted forest, in traversal order. -/
def keysOfForest : List ConvertedMenu → List String
  | [] => []
  | c :: rest => keysOfMenu c ++ keysOfForest rest

end

mutual

/-- All record identifiers in a menu subtree. -/
def idsOfMenu : MenuRecord → List Nat
  | MenuRecord.mk i _ _ _ _ _ c => i :: idsOfForest c

/-- All record identifiers in a menu forest. -/
def idsOfForest : List MenuRecord → List Nat
  | [] => []
  | m :: rest => idsOfMenu m ++ idsOfForest rest

end

mutual

/-- The parent_id chain condition of the claim: a record hanging under
the given parent identifier carries it as parent_id, recursively. -/
def parentLinked : Nat → MenuRecord → Bool
  | pid, MenuRecord.mk i p _ _ _ _ c => (p == pid) && parentLinkedForest i c

/-- parentLinked for every record of a forest. -/
def parentLinkedForest : Nat → List MenuRecord → Bool
  | _, [] => true
  | pid, m :: rest => parentLinked pid m && parentLinkedForest pid rest

end

/-- The hypothesis of the claim, formalized: the parent_id chains of the
nested input form a tree, i.e. identifiers are globally distinct and each
record carries the identifier of its parent (0 at the roots). -/
def treeInput (l : List MenuRecord) : Prop :=
  (idsOfForest l).Nodup ∧ parentLinkedForest 0 l = true

/-- Two sibling records with distinct identifiers, correct parent links,
but the same path segment. -/
def dupPathMenus : List MenuRecord :=
  [MenuRecord.mk 1 0 "用户管理" "user" none "menu" [],
   MenuRecord.mk 2 0 "用户中心" "user" none "menu" []]

/-- C6 counterexample: dupPathMenus satisfies the parent_id tree
hypothesis, yet the builder emits the key "user" twice, because the key
depends only on the path segments, which the hypothesis does not
constrain. -/
theorem menuBuilder_duplicate_keys :
    treeInput dupPathMenus ∧
    ¬ (keysOfForest (convertMenuData dupPathMenus "")).Nodup := by
  refine ⟨⟨?_, rfl⟩, ?_⟩
  · decide
  · have hk : keysOfForest (convertMenuData dupPathMenus "")
        = ["user", "user"] := rfl
    rw [hk]
    decide

/-- A path segment acceptable for key uniqueness: non-empty and free of
the slash used as the path joiner. -/
def segGood (s : String) : Bool :=
  (s != "") && !(decide (('/' : Char) ∈ s.data))

/-- Boolean no-duplicates check on a list of strings. -/
def listNodup : List String → Bool
  | [] => true
  | s :: rest => !(decide (s ∈ rest)) && listNodup rest

mutual

/-- A record is good when its segment is good, its children have pairwise
distinct segments, and its children are recursively good. -/
def goodMenu : MenuRecord → Bool
  | MenuRecord.mk _ _ _ pth _ _ children =>
    segGood pth && listNodup (children.map MenuRecord.pathOf) &&
      goodForest children

/-- Every record of the forest is good. -/
def goodForest : List MenuRecord → Bool
  | [] => true
  | m :: rest => goodMenu m && goodForest rest

end

/-- The amended hypothesis for key uniqueness: good segments with
pairwise distinct siblings at every level, including the top one. -/
def goodMenus (l : List MenuRecord) : Bool :=
  listNodup (l.map MenuRecord.pathOf) && goodForest l

mutual

/-- The segment address of every node in a record subtree: the record
itself, then its descendants, each prefixed by the record segment. -/
def menuAddrs : MenuRecord → List (List String)
  | MenuRecord.mk _ _ _ pth _ _ children =>
    [pth] :: (forestAddrs children).map (fun a => pth :: a)

/-- The segment addresses of all nodes of a forest. -/
def forestAddrs : List MenuRecord → List (List String)
  | [] => []
  | m :: rest => menuAddrs m ++ forestAddrs rest

end

/-- The key a node with the given segment address receives when the
conversion starts from parentPath p. -/
def keyOfAddr (p : String) (a : List String) : String :=
  a.foldl joinKey p

mutual

/-- Along the produced tree every key strictly lengthens from parent to
child (hence no node can reoccur among its own descendants). -/
def keysGrow : ConvertedMenu → Bool
  | ConvertedMenu.mk _ _ _ none => true
  | ConvertedMenu.mk k _ _ (some cs) => forestKeysGrow k cs

/-- All keys of the forest are strictly longer than the given parent key
and their subtrees grow as well. -/
def forestKeysGrow : String → List ConvertedMenu → Bool
  | _, [] => true
  | k, c :: rest =>
    (k.length < (ConvertedMenu.keyOf c).length) && keysGrow c &&
      forestKeysGrow k rest

end

/-- Folding the key join over a cons starts from the joined head. -/
theorem keyOfAddr_cons (p s : String) (a : List String) :
    keyOfAddr p (s :: a) = keyOfAddr (joinKey p s) a := rfl

mutual

/-- The keys of a converted subtree are the keys of its addresses. -/
theorem keysOfMenu_eq : ∀ (m : MenuRecord) (p : String),
    keysOfMenu (convertOne m p) = (menuAddrs m).map (keyOfAddr p)
  | MenuRecord.mk i pid nm pth ic mt [], p => by
    simp [convertOne, keysOfMenu, menuAddrs, forestAddrs, keyOfAddr]
  | MenuRecord.mk i pid nm pth ic mt (c :: cs), p => by
    have ih := keysOfForest_eq (c :: cs) (joinKey p pth)
    simp [convertOne, keysOfMenu, menuAddrs, ih, List.map_map,
      Function.comp, keyOfAddr_cons, keyOfAddr]

/-- The keys of a converted forest are the keys of its addresses. -/
theorem keysOfForest_eq : ∀ (l : List MenuRecord) (p : String),
    keysOfForest (convertMenuData l p) = (forestAddrs l).map (keyOfAddr p)
  | [], _ => rfl
  | m :: rest, p => by
    have ih1 := keysOfMenu_eq m p
    have ih2 := keysOfForest_eq rest p
    simp [convertMenuData, keysOfForest, forestAddrs, ih1, ih2]

end

/-- Every address of a subtree starts with the record segment. -/
theorem menuAddrs_shape (m : MenuRecord) :
    ∀ a ∈ menuAddrs m, ∃ t, a = MenuRecord.pathOf m :: t := by
  match m with
  | MenuRecord.mk i pid nm pth ic mt children =>
    intro a ha
    simp [menuAddrs, MenuRecord.pathOf] at ha ⊢
    rcases ha with rfl | ⟨b, _, rfl⟩
    · exact ⟨[], rfl⟩
    · exact ⟨b, rfl⟩

/-- Every address of a forest starts with the segment of one of its
records. -/
theorem forestAddrs_shape :
    ∀ (l : List MenuRecord), ∀ a ∈ forestAddrs l,
      ∃ m, m ∈ l ∧ ∃ t, a = MenuRecord.pathOf m :: t
  | [] => by simp [forestAddrs]
  | m :: rest => by
    intro a ha
    simp [forestAddrs] at ha
    rcases ha with ha | ha
    · obtain ⟨t, rfl⟩ := menuAddrs_shape m a ha
      exact ⟨m, List.mem_cons_self m rest, t, rfl⟩
    · obtain ⟨m2, hm2, t, rfl⟩ := forestAddrs_shape rest a ha
      exact ⟨m2, List.mem_cons_of_mem m hm2, t, rfl⟩

mutual

/-- In a good subtree every address consists of good segments. -/
theorem menuAddrs_good : ∀ (m : MenuRecord), goodMenu m = true →
    ∀ a ∈ menuAddrs m, ∀ s ∈ a, segGood s = true
  | MenuRecord.mk i pid nm pth ic mt children => by
    intro h a ha s hs
    simp [goodMenu] at h
    obtain ⟨⟨hseg, _⟩, hforest⟩ := h
    simp [menuAddrs] at ha
    rcases ha with rfl | ⟨b, hb, rfl⟩
    · simp at hs
      exact hs ▸ hseg
    · simp at hs
      rcases hs with rfl | hs
      · exact hseg
      · exact forestAddrs_good children hforest b hb s hs

/-- In a good forest every address consists of good segments. -/
theorem forestAddrs_good : ∀ (l : List MenuRecord), goodForest l = true →
    ∀ a ∈ forestAddrs l, ∀ s ∈ a, segGood s = true
  | [] => by simp [forestAddrs]
  | m :: rest => by
    intro h a ha s hs
    simp [goodForest] at h
    simp [forestAddrs] at ha
    rcases ha with ha | ha
    · exact menuAddrs_good m h.1 a ha s hs
    · exact forestAddrs_good rest h.2 a ha s hs

end

/-- listNodup agrees with List.Nodup. -/
theorem listNodup_iff : ∀ (l : List String), listNodup l = true ↔ l.Nodup
  | [] => by simp [listNodup]
  | s :: rest => by
    simp [listNodup, List.nodup_cons, listNodup_iff rest]

mutual

/-- Addresses of a good subtree are pairwise distinct. -/
theorem menuAddrs_nodup : ∀ (m : MenuRecord), goodMenu m = true →
    (menuAddrs m).Nodup
  | MenuRecord.mk i pid nm pth ic mt children => by
    intro h
    simp [goodMenu] at h
    obtain ⟨⟨hseg, hnodup⟩, hforest⟩ := h
    simp [menuAddrs]
    refine ⟨?_, ?_⟩
    · intro hmem
      obtain ⟨m2, _, t, ht⟩ := forestAddrs_shape children [] hmem
      simp at ht
    · refine List.Nodup.map ?_ (forestAddrs_nodup children hnodup hforest)
      intro x y hxy
      simpa using hxy

/-- Addresses of a good forest with pairwise distinct sibling segments
are pairwise distinct. -/
theorem forestAddrs_nodup : ∀ (l : List MenuRecord),
    listNodup (l.map MenuRecord.pathOf) = true → goodForest l = true →
    (forestAddrs l).Nodup
  | [] => by simp [forestAddrs]
  | m :: rest => by
    intro hnd hf
    simp [goodForest] at hf
    simp [listNodup] at hnd
    refine List.Nodup.append (menuAddrs_nodup m hf.1)
      (forestAddrs_nodup rest hnd.2 hf.2) ?_
    intro a ha hb
    obtain ⟨t, rfl⟩ := menuAddrs_shape m a ha
    obtain ⟨m2, hm2, t2, heq⟩ := forestAddrs_shape rest _ hb
    have hhead : MenuRecord.pathOf m = MenuRecord.pathOf m2 := by
      injection heq
    exact hnd.1 m2 hm2 hhead.symm

end

/-- Unfolding intercalate over two heads. -/
theorem interc_cons₂ (A B : List Char) (C : List (List Char)) :
    List.intercalate ['/'] (A :: B :: C)
      = A ++ '/' :: List.intercalate ['/'] (B :: C) := by
  simp [List.intercalate, List.intersperse]

/-- A slash inside the head of an intercalation can be split off. -/
theorem interc_shift (x y : List Char) (zs : List (List Char)) :
    List.intercalate ['/'] ((x ++ '/' :: y) :: zs)
      = x ++ '/' :: List.intercalate ['/'] (y :: zs) := by
  cases zs with
  | nil => simp [List.intercalate, List.intersperse]
  | cons z zs => rw [interc_cons₂, interc_cons₂]; simp

/-- The key built from a non-empty parentPath is the slash intercalation
of the parentPath characters and the segment characters. -/
theorem keyOfAddr_data : ∀ (rest : List String) (p : String), p ≠ "" →
    (keyOfAddr p rest).data
      = List.intercalate ['/'] (p.data :: rest.map String.data)
  | [], p, _ => by simp [keyOfAddr, List.intercalate, List.intersperse]
  | s :: rest, p, hp => by
    have hp2 : p ++ "/" ++ s ≠ "" := by
      intro hcontra
      have hd := congrArg String.data hcontra
      simp [String.data_append] at hd
    have ih := keyOfAddr_data rest (p ++ "/" ++ s) hp2
    rw [keyOfAddr_cons]
    have hj : joinKey p s = p ++ "/" ++ s := by simp [joinKey, hp]
    rw [hj, ih]
    have hdp : (p ++ "/" ++ s).data = p.data ++ '/' :: s.data := by
      simp [String.data_append]
    rw [hdp, interc_shift, List.map_cons, interc_cons₂]

/-- The key of a good non-empty address from the root parentPath is the
slash intercalation of its segments. -/
theorem keyOfAddr_root_data : ∀ (a : List String), a ≠ [] →
    (∀ s ∈ a, segGood s = true) →
    (keyOfAddr "" a).data = List.intercalate ['/'] (a.map String.data)
  | [], h, _ => absurd rfl h
  | s :: rest, _, hg => by
    have hs : s ≠ "" := by
      have hgs := hg s (List.mem_cons_self s rest)
      simp [segGood] at hgs
      exact hgs.1
    rw [keyOfAddr_cons]
    have hj : joinKey "" s = s := by simp [joinKey]
    rw [hj, keyOfAddr_data rest s hs, List.map_cons]

/-- Distinct good addresses receive distinct keys. -/
theorem keyOfAddr_inj (a b : List String) (ha : a ≠ []) (hb : b ≠ [])
    (hga : ∀ s ∈ a, segGood s = true) (hgb : ∀ s ∈ b, segGood s = true)
    (h : keyOfAddr "" a = keyOfAddr "" b) : a = b := by
  have hdata := congrArg String.data h
  rw [keyOfAddr_root_data a ha hga, keyOfAddr_root_data b hb hgb] at hdata
  have hxa : ∀ l ∈ a.map String.data, ('/' : Char) ∉ l := by
    intro l hl
    obtain ⟨s, hs, rfl⟩ := List.mem_map.mp hl
    have hgs := hga s hs
    simp [segGood] at hgs
    exact hgs.2
  have hxb : ∀ l ∈ b.map String.data, ('/' : Char) ∉ l := by
    intro l hl
    obtain ⟨s, hs, rfl⟩ := List.mem_map.mp hl
    have hgs := hgb s hs
    simp [segGood] at hgs
    exact hgs.2
  have hma : a.map String.data ≠ [] := by simpa using ha
  have hmb : b.map String.data ≠ [] := by simpa using hb
  have key1 := List.splitOn_intercalate (a.map String.data) '/' hxa hma
  have key2 := List.splitOn_intercalate (b.map String.data) '/' hxb hmb
  have hmapeq : a.map String.data = b.map String.data := by
    rw [← key1, ← key2, hdata]
  exact List.map_injective_iff.mpr (fun x y hxy => String.ext hxy) hmapeq

/-- Joining a non-empty segment never yields the empty key. -/
theorem joinKey_ne_empty (p s : String) (hs : s ≠ "") : joinKey p s ≠ "" := by
  by_cases hp : p = ""
  · simpa [joinKey, hp] using hs
  · intro hcontra
    rw [joinKey, if_neg hp] at hcontra
    have hd := congrArg String.data hcontra
    simp [String.data_append] at hd

/-- Length of a key joined onto a non-empty parentPath. -/
theorem joinKey_length (p s : String) (hp : p ≠ "") :
    (joinKey p s).length = p.length + 1 + s.length := by
  rw [joinKey, if_neg hp]
  have h1 : ("/" : String).length = 1 := rfl
  simp [String.length_append, h1]

/-- The key of a converted node is the join of parentPath and segment. -/
theorem convertOne_keyOf (m : MenuRecord) (p : String) :
    (convertOne m p).keyOf = joinKey p (MenuRecord.pathOf m) := by
  match m with
  | MenuRecord.mk i pid nm pth ic mt children =>
    cases children <;>
      simp [convertOne, ConvertedMenu.keyOf, MenuRecord.pathOf]

mutual

/-- Converted good subtrees have strictly growing keys. -/
theorem convertOne_grow : ∀ (m : MenuRecord) (p : String),
    goodMenu m = true → keysGrow (convertOne m p) = true
  | MenuRecord.mk i pid nm pth ic mt [], p => by
    intro _
    simp [convertOne, keysGrow]
  | MenuRecord.mk i pid nm pth ic mt (c :: cs), p => by
    intro h
    simp [goodMenu] at h
    obtain ⟨⟨hseg, _⟩, hforest⟩ := h
    have hpth : pth ≠ "" := by
      simp [segGood] at hseg
      exact hseg.1
    have hne := joinKey_ne_empty p pth hpth
    have hrec := convertForest_grow (c :: cs) (joinKey p pth) hforest hne
    simp [convertOne, keysGrow, hrec]

/-- Converted good forests have keys strictly longer than the non-empty
parentPath and growing subtrees. -/
theorem convertForest_grow : ∀ (l : List MenuRecord) (p : String),
    goodForest l = true → p ≠ "" →
    forestKeysGrow p (convertMenuData l p) = true
  | [], p => by
    intro _ _
    rfl
  | m :: rest, p => by
    intro h hp
    simp [goodForest] at h
    have h1 : p.length < (ConvertedMenu.keyOf (convertOne m p)).length := by
      rw [convertOne_keyOf, joinKey_length p _ hp]
      omega
    have h2 := convertOne_grow m p h.1
    have h3 := convertForest_grow rest p h.2 hp
    simp [convertMenuData, forestKeysGrow, h1, h2, h3]

end

/-- Converted good forests from the root parentPath grow everywhere. -/
theorem convertForest_all_grow : ∀ (l : List MenuRecord),
    goodForest l = true → (convertMenuData l "").all keysGrow = true
  | [] => by
    intro _
    rfl
  | m :: rest => by
    intro h
    simp [goodForest] at h
    simp [convertMenuData, convertOne_grow m "" h.1,
      convertForest_all_grow rest h.2]

/-- C6 amended: when every path segment is non-empty, slash-free and
pairwise distinct among its siblings at every level, the keys produced by
convertMenuData are pairwise distinct; moreover every key strictly
lengthens from parent to child, so the produced structure has no cycles.
The original claim fails because its hypothesis only constrains
parent_id chains, which the builder never reads. -/
theorem menuBuilder_keys_nodup_acyclic (l : List MenuRecord)
    (h : goodMenus l = true) :
    (keysOfForest (convertMenuData l "")).Nodup ∧
    (convertMenuData l "").all keysGrow = true := by
  simp [goodMenus] at h
  obtain ⟨hnd, hf⟩ := h
  constructor
  · rw [keysOfForest_eq]
    refine List.Nodup.map_on ?_ (forestAddrs_nodup l hnd hf)
    intro a ha b hb hab
    obtain ⟨m1, _, t1, ha1⟩ := forestAddrs_shape l a ha
    obtain ⟨m2, _, t2, hb1⟩ := forestAddrs_shape l b hb
    exact keyOfAddr_inj a b (by simp [ha1]) (by simp [hb1])
      (forestAddrs_good l hf a ha) (forestAddrs_good l hf b hb) hab
  · exact convertForest_all_grow l hf

/-- A two-level well-formed menu list with distinct sibling segments. -/
def sampleMenus : List MenuRecord :=
  [MenuRecord.mk 1 0 "系统管理" "system" none "catalog"
    [MenuRecord.mk 2 1 "用户管理" "user" (some "ph:user") "menu" [],
     MenuRecord.mk 3 1 "角色管理" "role" none "menu" []],
   MenuRecord.mk 4 0 "一级菜单" "top" none "menu" []]

/-- C6 witness: the hypothesis holds on sampleMenus and the conclusion
evaluates there. -/
theorem menuBuilder_keys_nodup_acyclic_witness :
    goodMenus sampleMenus = true ∧
    (keysOfForest (convertMenuData sampleMenus "")).Nodup ∧
    (convertMenuData sampleMenus "").all keysGrow = true :=
  ⟨by decide,
   (menuBuilder_keys_nodup_acyclic sampleMenus (by decide)).1,
   (menuBuilder_keys_nodup_acyclic sampleMenus (by decide)).2⟩

/-- C7: converting a record list maps each record to a node whose key
joins the parentPath and the segment with a slash (the bare segment when
the parentPath is empty), whose label is the record name, whose icon is
the explicit icon when truthy and otherwise the default keyed by
menu_type, and whose children field is present exactly when the record
has a non-empty children list, converted under the new key. -/
theorem convertMenuData_node_shape (p : String) (m : MenuRecord)
    (rest : List MenuRecord) :
    convertMenuData (m :: rest) p
      = convertOne m p :: convertMenuData rest p ∧
    (convertOne m p).keyOf =
      (if p = "" then MenuRecord.pathOf m
        else p ++ "/" ++ MenuRecord.pathOf m) ∧
    (convertOne m p).labelOf = MenuRecord.nameOf m ∧
    (∀ s, MenuRecord.iconOf m = some s → s ≠ "" →
      (convertOne m p).iconValOf = IconVal.iconify s) ∧
    (truthyStr (MenuRecord.iconOf m) = none →
      (convertOne m p).iconValOf = getDefaultIcon (MenuRecord.menuTypeOf m)) ∧
    (MenuRecord.childrenOf m = [] → (convertOne m p).childrenOf = none) ∧
    (MenuRecord.childrenOf m ≠ [] →
      (convertOne m p).childrenOf =
        some (convertMenuData (MenuRecord.childrenOf m)
          ((convertOne m p).keyOf))) ∧
    getDefaultIcon "catalog" = IconVal.settingOutlined ∧
    getDefaultIcon "menu" = IconVal.menuOutlined ∧
    getDefaultIcon "button" = IconVal.appstoreOutlined := by
  match m with
  | MenuRecord.mk i pid nm pth ic mt children =>
    refine ⟨rfl, ?_, ?_, ?_, ?_, ?_, ?_, rfl, rfl, rfl⟩
    · rw [convertOne_keyOf]
      simp [joinKey, MenuRecord.pathOf]
    · cases children <;>
        simp [convertOne, ConvertedMenu.labelOf, MenuRecord.nameOf]
    · intro s hs hne
      simp [MenuRecord.iconOf] at hs
      have hic : truthyStr ic = some s := by simp [truthyStr, hs, hne]
      cases children <;>
        simp [convertOne, ConvertedMenu.iconValOf, hic]
    · intro hic
      simp [MenuRecord.iconOf] at hic
      cases children <;>
        simp [convertOne, ConvertedMenu.iconValOf, MenuRecord.menuTypeOf, hic]
    · intro hc
      simp [MenuRecord.childrenOf] at hc
      subst hc
      simp [convertOne, ConvertedMenu.childrenOf]
    · intro hc
      simp [MenuRecord.childrenOf] at hc ⊢
      match children, hc with
      | c :: cs, _ =>
        rw [convertOne_keyOf]
        simp [convertOne, ConvertedMenu.childrenOf, MenuRecord.pathOf]

/-- C7 witness: the shape at a concrete record with children. -/
theorem convertMenuData_node_shape_witness :
    convertMenuData sampleMenus ""
      = convertOne
          (MenuRecord.mk 1 0 "系统管理" "system" none "catalog"
            [MenuRecord.mk 2 1 "用户管理" "user" (some "ph:user") "menu" [],
             MenuRecord.mk 3 1 "角色管理" "role" none "menu" []]) ""
        :: convertMenuData
          [MenuRecord.mk 4 0 "一级菜单" "top" none "menu" []] "" ∧
    (convertOne
      (MenuRecord.mk 2 1 "用户管理" "user" (some "ph:user") "menu" [])
      "system").iconValOf = IconVal.iconify "ph:user" ∧
    (convertOne
      (MenuRecord.mk 3 1 "角色管理" "role" none "menu" [])
      "system").iconValOf = getDefaultIcon "menu" :=
  ⟨(convertMenuData_node_shape ""
      (MenuRecord.mk 1 0 "系统管理" "system" none "catalog"
        [MenuRecord.mk 2 1 "用户管理" "user" (some "ph:user") "menu" [],
         MenuRecord.mk 3 1 "角色管理" "role" none "menu" []])
      [MenuRecord.mk 4 0 "一级菜单" "top" none "menu" []]).1,
   ((convertMenuData_node_shape "system"
      (MenuRecord.mk 2 1 "用户管理" "user" (some "ph:user") "menu" [])
      []).2.2.2.1) "ph:user" rfl (by decide),
   ((convertMenuData_node_shape "system"
      (MenuRecord.mk 3 1 "角色管理" "role" none "menu" [])
      []).2.2.2.2.1) rfl⟩

/-! ### fetchUserMenu fallback (react-web Layout/index.jsx) -/

/-- The fixed dashboard entry placed first in the menu state. -/
def dashboardItem : ConvertedMenu :=
  ConvertedMenu.mk "/dashboard" "工作台" IconVal.dashboardOutlined none

/-- fetchUserMenu from Layout/index.jsx, as a function of the outcome of
the getUserMenu request: on failure the menu state is the dashboard entry
alone; on success it is the dashboard entry followed by the converted
backend menus (response.data falling back to the empty list). -/
def fetchUserMenuState
    (result : Except Unit (Option (List MenuRecord))) : List ConvertedMenu :=
  match result with
  | Except.error _ => [dashboardItem]
  | Except.ok d => dashboardItem :: convertMenuData (d.getD []) ""

/-- C9: a failed menu fetch yields exactly the single dashboard entry;
a successful fetch appends the converted menus after the dashboard entry,
which is always in first position. -/
theorem fetchUserMenu_fallback
    (result : Except Unit (Option (List MenuRecord))) :
    (∀ e, result = Except.error e →
      fetchUserMenuState result = [dashboardItem]) ∧
    (∀ d, result = Except.ok d →
      fetchUserMenuState result
        = dashboardItem :: convertMenuData (d.getD []) "") ∧
    (fetchUserMenuState result).head? = some dashboardItem := by
  cases result <;> simp [fetchUserMenuState]

/-- C9 witness: the fallback at a failure and at a concrete success. -/
theorem fetchUserMenu_fallback_witness :
    fetchUserMenuState (Except.error ()) = [dashboardItem] ∧
    fetchUserMenuState (Except.ok (some sampleMenus))
      = dashboardItem :: convertMenuData sampleMenus "" :=
  ⟨(fetchUserMenu_fallback (Except.error ())).1 () rfl,
   (fetchUserMenu_fallback (Except.ok (some sampleMenus))).2.1
      (some sampleMenus) rfl⟩

/-! ### Password strength (web passwordStrength.js) -/

/-- PASSWORD_CONFIG.MIN_LENGTH; all four REQUIRE flags of the config are
true, so every run performs five checks and each is worth 100 / 5 = 20
points exactly. -/
def PASSWORD_MIN_LENGTH : Nat := 8

/-- The uppercase regex character class. -/
def isUpperChar (c : Char) : Bool := 'A' ≤ c && c ≤ 'Z'

/-- The lowercase regex character class. -/
def isLowerChar (c : Char) : Bool := 'a' ≤ c && c ≤ 'z'

/-- The digit regex character class. -/
def isDigitChar (c : Char) : Bool := '0' ≤ c && c ≤ '9'

/-- The listed special characters of the strength check. -/
def specialChars : List Char :=
  ['!', '@', '#', '$', '%', '^', '&', '*', '(', ')', ',', '.', '?',
   '\"', ':', '\x7b', '\x7d', '|', '<', '>']

/-- The special-character regex class. -/
def isSpecialChar (c : Char) : Bool := specialChars.contains c

/-- The result record of checkPasswordStrength. -/
structure StrengthResult where
  score : Nat
  level : String
  levelText : String
  color : String
  suggestions : List String
  passed : List String
  passedAll : Bool
deriving DecidableEq, Repr

/-- The body of checkPasswordStrength after the five checks have been
evaluated: score accumulation, suggestion and passed lists in source push
order, the medium threshold Math.ceil(5 * 0.7) = 4, and the level
selection. -/
def strengthFromChecks
    (lengthOk upperOk lowerOk digitOk specialOk : Bool) : StrengthResult :=
  let passedChecks :=
    (if lengthOk then 1 else 0) + (if upperOk then 1 else 0) +
    (if lowerOk then 1 else 0) + (if digitOk then 1 else 0) +
    (if specialOk then 1 else 0)
  let score := 20 * passedChecks
  let finalScore := min 100 score
  let passed :=
    (if lengthOk then ["length"] else []) ++
    (if upperOk then ["uppercase"] else []) ++
    (if lowerOk then ["lowercase"] else []) ++
    (if digitOk then ["digits"] else []) ++
    (if specialOk then ["special"] else [])
  let suggestions :=
    (if lengthOk then [] else ["密码长度至少8个字符"]) ++
    (if upperOk then [] else ["包含至少一个大写字母"]) ++
    (if lowerOk then [] else ["包含至少一个小写字母"]) ++
    (if digitOk then [] else ["包含至少一个数字"]) ++
    (if specialOk then []
      else ["包含至少一个特殊字符 (!@#$%^&*(),.?\":\x7b\x7d|<>)"])
  if passedChecks = 5 then
    ⟨finalScore, "strong", "强", "#52c41a", suggestions, passed, true⟩
  else if 4 ≤ passedChecks then
    ⟨finalScore, "medium", "中", "#faad14", suggestions, passed, false⟩
  else
    ⟨finalScore, "weak", "弱", "#ff4d4f", suggestions, passed, false⟩

/-- checkPasswordStrength from passwordStrength.js. A falsy (empty)
password short-circuits; otherwise the five checks run on the characters
of the password (String.length counts characters, matching the
JavaScript length on the basic multilingual plane). -/
def checkPasswordStrength (password : String) : StrengthResult :=
  if password = "" then
    ⟨0, "weak", "弱", "#ff4d4f", ["请输入密码"], [], false⟩
  else
    strengthFromChecks
      (decide (PASSWORD_MIN_LENGTH ≤ password.length))
      (password.data.any isUpperChar)
      (password.data.any isLowerChar)
      (password.data.any isDigitChar)
      (password.data.any isSpecialChar)

/-- Exhaustive check of the strength summary over the five Booleans. -/
theorem strengthFromChecks_spec (b1 b2 b3 b4 b5 : Bool) :
    (strengthFromChecks b1 b2 b3 b4 b5).score ≤ 100 ∧
    ((strengthFromChecks b1 b2 b3 b4 b5).passedAll = true ↔
      (b1 = true ∧ b2 = true ∧ b3 = true ∧ b4 = true ∧ b5 = true)) ∧
    ((strengthFromChecks b1 b2 b3 b4 b5).passedAll = true ↔
      ((strengthFromChecks b1 b2 b3 b4 b5).level = "strong" ∧
        (strengthFromChecks b1 b2 b3 b4 b5).score = 100)) ∧
    ((strengthFromChecks b1 b2 b3 b4 b5).passedAll = false →
      (strengthFromChecks b1 b2 b3 b4 b5).suggestions ≠ []) := by
  revert b1 b2 b3 b4 b5
  decide

/-- C10: the score never exceeds 100 (and is a natural number, hence at
least 0); passedAll holds exactly when all five checks pass; exactly in
that case the level is strong and the score is 100; otherwise the
suggestion list is non-empty. -/
theorem checkPasswordStrength_spec (password : String) :
    (checkPasswordStrength password).score ≤ 100 ∧
    ((checkPasswordStrength password).passedAll = true ↔
      (8 ≤ password.length ∧
        password.data.any isUpperChar = true ∧
        password.data.any isLowerChar = true ∧
        password.data.any isDigitChar = true ∧
        password.data.any isSpecialChar = true)) ∧
    ((checkPasswordStrength password).passedAll = true ↔
      ((checkPasswordStrength password).level = "strong" ∧
        (checkPasswordStrength password).score = 100)) ∧
    ((checkPasswordStrength password).passedAll = false →
      (checkPasswordStrength password).suggestions ≠ []) := by
  by_cases hpw : password = ""
  · subst hpw
    refine ⟨?_, ?_, ?_, ?_⟩ <;> simp [checkPasswordStrength]
  · have hcore := strengthFromChecks_spec
      (decide (PASSWORD_MIN_LENGTH ≤ password.length))
      (password.data.any isUpperChar)
      (password.data.any isLowerChar)
      (password.data.any isDigitChar)
      (password.data.any isSpecialChar)
    simp only [checkPasswordStrength, if_neg hpw]
    simpa [PASSWORD_MIN_LENGTH] using hcore

/-- C10 witness: evaluating the strength summary at a password passing
all checks. -/
theorem checkPasswordStrength_spec_witness :
    (checkPasswordStrength "Aa1!aaaa").passedAll = true ∧
    (checkPasswordStrength "Aa1!aaaa").level = "strong" ∧
    (checkPasswordStrength "Aa1!aaaa").score = 100 :=
  have h := checkPasswordStrength_spec "Aa1!aaaa"
  have hall := (h.2.1).mpr (by decide)
  ⟨hall, ((h.2.2.1).mp hall).1, ((h.2.2.1).mp hall).2⟩
